import Mathlib

/-!
# Verification of the JSON-Schema checking script

Shallow embedding of `scripts/verify_json_schema.py`: the script walks the
given paths, extracts JSON Schema sources from standalone `.json` files and
from fenced ```` ```json ```` blocks in Markdown files (including
`--8<--` snippet-include directives), then runs a Draft-07 dialect check and
a structural (meta-schema) check on every source and reports labeled
failures.

The filesystem, `json.loads` and `jsonschema.Draft7Validator.check_schema`
are external to the script and are passed as explicit parameters (`FS`,
`loads`, `check_schema`); everything the script itself computes is embedded
as executable Lean definitions mirroring the Python line by line.  Python
string operations (`strip`, `lower`, `startswith`, `splitlines`, `str.join`)
are modelled over `List Char` for their ASCII behaviour, which is all the
script's fence markers and directive syntax use.
-/

namespace VerifyJsonSchema

/-! ## Python string primitives, modelled over `List Char` -/

/-- Whitespace characters of Python `str.strip` / regex `\s` (ASCII subset:
space, tab, newline, carriage return, vertical tab, form feed). -/
def isPyWs (c : Char) : Bool :=
  c = ' ' || c = '\t' || c = '\n' || c = '\r' || c = Char.ofNat 11 || c = Char.ofNat 12

/-- Python `str.strip()`: drop leading and trailing whitespace. -/
def pyStrip (s : String) : String :=
  String.mk (((s.toList.dropWhile isPyWs).reverse.dropWhile isPyWs).reverse)

/-- Python `str.lower()` (ASCII case folding suffices for the fence marker). -/
def pyLower (s : String) : String :=
  String.mk (s.toList.map Char.toLower)

/-- Python `str.startswith(pre)`. -/
def strStartsWith (s pre : String) : Bool :=
  List.isPrefixOf pre.toList s.toList

/-- Split a character list at every occurrence of `c` (keeping empty parts). -/
def splitCharList (c : Char) : List Char → List (List Char)
  | [] => [[]]
  | x :: xs =>
    let r := splitCharList c xs
    if x = c then [] :: r
    else
      match r with
      | [] => [[x]]
      | h :: t => (x :: h) :: t

/-- Split a string at every occurrence of the character `c`. -/
def splitOnChar (c : Char) (s : String) : List String :=
  (splitCharList c s.toList).map String.mk

/-- Python `str.splitlines()` for `\n`-separated text: no entry for a
trailing newline, `[]` for the empty string. -/
def splitlines (s : String) : List String :=
  if s = "" then []
  else
    let parts := splitOnChar '\n' s
    if parts.getLast? = some "" then parts.dropLast else parts

/-- Python `"\n".join(...)` and friends. -/
def joinWith (sep : String) : List String → String
  | [] => ""
  | [x] => x
  | x :: y :: xs => x ++ sep ++ joinWith sep (y :: xs)

/-- `pathlib.Path.parent` rendered on string paths: everything before the
last `/`, with `.` for a bare filename (as in Python). -/
def dirname (p : String) : String :=
  let parts := splitOnChar '/' p
  if parts.length ≤ 1 then "." else joinWith "/" parts.dropLast

/-- `pathlib.Path.suffix`: the last extension of the final path component,
with the leading dot; empty for no extension or a leading-dot-only name. -/
def pathSuffix (p : String) : String :=
  let base := ((splitOnChar '/' p).getLast?).getD ""
  let parts := splitOnChar '.' base
  if parts.length ≤ 1 then ""
  else
    let ext := (parts.getLast?).getD ""
    if ext = "" then ""
    else if parts.length = 2 && parts.head? = some "" then ""
    else "." ++ ext

/-- `pathlib`'s `/` operator for the relative targets the script joins. -/
def pjoin (a b : String) : String := a ++ "/" ++ b

/-! ## JSON values and the schema-or-error slot -/

/-- A parsed JSON document, as `json.loads` would return it.  Objects are
the association list of the parsed dict (duplicate keys already resolved by
the parser, so lookups treat the last binding as authoritative). -/
inductive Json where
  | null : Json
  | bool (b : Bool) : Json
  | num (n : Int) : Json
  | str (s : String) : Json
  | arr (items : List Json) : Json
  | obj (entries : List (String × Json)) : Json

/-- The dynamic `schema` slot of the Python `SchemaSource` dataclass: either
a parsed JSON value or a captured `json.JSONDecodeError` (of which the
script only ever reads `.msg`, so only the message is carried). -/
inductive SchemaValue where
  | parsed (v : Json) : SchemaValue
  | decodeError (msg : String) : SchemaValue

/-- Python `isinstance(schema, dict)`. -/
def is_dict : SchemaValue → Bool
  | SchemaValue.parsed (Json.obj _) => true
  | _ => false

/-- Whether a JSON value is an object. -/
def jsonIsObj : Json → Bool
  | Json.obj _ => true
  | _ => false

/-- The `SchemaSource` dataclass of the script. -/
structure SchemaSource where
  path : String
  label : String
  schema : SchemaValue

/-- The filesystem the script reads through `pathlib`: existence and
directory tests, recursive globs (in traversal order) and file contents. -/
structure FS where
  pathExists : String → Bool
  isDir : String → Bool
  rglobJson : String → List String
  rglobMd : String → List String
  read_text : String → String

/-! ## Constants and label/message construction -/

/-- The `DRAFT07_URIS` set of the script (as the list it is written as). -/
def DRAFT07_URIS : List String :=
  ["http://json-schema.org/draft-07/schema#",
   "https://json-schema.org/draft-07/schema#",
   "http://json-schema.org/draft-07/schema",
   "https://json-schema.org/draft-07/schema"]

/-- Python `f"{label}: {msg}"`, the shape of every failure string. -/
def mkFailure (label msg : String) : String := label ++ ": " ++ msg

/-- Python `f"{path}:{start_line} (block {block_index})"`. -/
def mkLabel (path : String) (start_line block_index : Nat) : String :=
  path ++ ":" ++ toString start_line ++ " (block " ++ toString block_index ++ ")"

/-- Python `f"{path}:{start_line} (block {block_index}, include {include_path})"`. -/
def mkLabelInclude (path : String) (start_line block_index : Nat) (include_path : String) : String :=
  path ++ ":" ++ toString start_line ++ " (block " ++ toString block_index ++
    ", include " ++ include_path ++ ")"

def dquoteC : Char := Char.ofNat 34

def squoteC : Char := Char.ofNat 39

/-- Matcher for `SNIPPET_DIRECTIVE_RE = ^--8<--\s+["\x27]([^"\x27]+)["\x27]\s*$`:
the marker, at least one whitespace, a quote (either kind), a non-empty run
of non-quote characters (the captured target), a quote (either kind, not
necessarily matching), then only whitespace to the end.  The character
classes make the regex deterministic, so this direct scan is exact. -/
def snippet_directive_match (s : String) : Option String :=
  let cs := s.toList
  if cs.take 6 = "--8<--".toList then
    let rest := cs.drop 6
    let ws := rest.takeWhile isPyWs
    if ws.length = 0 then none
    else
      match rest.drop ws.length with
      | [] => none
      | q :: rest2 =>
        if q = dquoteC || q = squoteC then
          let tgt := rest2.takeWhile (fun c => !(c = dquoteC || c = squoteC))
          if tgt.length = 0 then none
          else
            match rest2.drop tgt.length with
            | [] => none
            | q2 :: rest3 =>
              if (q2 = dquoteC || q2 = squoteC) && rest3.all isPyWs then
                some (String.mk tgt)
              else none
        else none
  else none

/-! ## Source extraction -/

/-- Python `parse_json_file`: `json.load` is NOT wrapped in a `try` there, so
a parse error propagates to the caller (modelled by `Except.error`); on
success the file yields one `SchemaSource` labelled by its path. -/
def parse_json_file (fs : FS) (loads : String → Except String Json) (path : String) :
    Except String (List SchemaSource) :=
  match loads (fs.read_text path) with
  | Except.error e => Except.error e
  | Except.ok data => Except.ok [⟨path, path, SchemaValue.parsed data⟩]

/-- Python `parse_json_block`: a parse error is caught and stored in the
`schema` slot of the resulting `SchemaSource`. -/
def parse_json_block (loads : String → Except String Json) (path : String)
    (start_line block_index : Nat) (block_text : String) : SchemaSource :=
  let label := mkLabel path start_line block_index
  match loads block_text with
  | Except.error e => ⟨path, label, SchemaValue.decodeError e⟩
  | Except.ok data => ⟨path, label, SchemaValue.parsed data⟩

/-- Python `parse_snippet_block`: try the three candidate paths in order,
use the first that exists; none existing yields a captured decode error
naming the missing target; a parse error of the included file is captured;
on success the label additionally records the resolved include path.
(The unused `original_block_text` argument mirrors the Python signature,
where it only seeds the synthetic `JSONDecodeError`'s document field.) -/
def parse_snippet_block (fs : FS) (loads : String → Except String Json) (path : String)
    (start_line block_index : Nat) (include_target : String) (repo_root : String)
    (_original_block_text : String) : SchemaSource :=
  let label := mkLabel path start_line block_index
  let candidate_paths :=
    [pjoin (dirname path) include_target,
     pjoin repo_root include_target,
     pjoin (pjoin repo_root "json-schema") include_target]
  match candidate_paths.find? (fun candidate => fs.pathExists candidate) with
  | none => ⟨path, label, SchemaValue.decodeError ("snippet include not found: " ++ include_target)⟩
  | some include_path =>
    match loads (fs.read_text include_path) with
    | Except.error e => ⟨path, label, SchemaValue.decodeError e⟩
    | Except.ok data =>
      ⟨path, mkLabelInclude path start_line block_index include_path, SchemaValue.parsed data⟩

/-- State of the two-state fence scanner of `parse_markdown_json_blocks`:
the `in_block` flag, the recorded start line and accumulated lines of the
open block, and the closed blocks so far as `(start_line, raw_text)`. -/
structure ScanState where
  in_block : Bool
  block_start_line : Nat
  block_lines : List String
  blocks : List (Nat × String)

/-- One iteration of the scanner's loop body, for the 1-based physical line
number `idx` and the line's text. -/
def scan_step (idx : Nat) (st : ScanState) (line : String) : ScanState :=
  let stripped := pyStrip line
  if !st.in_block && strStartsWith (pyLower stripped) "```json" then
    { st with in_block := true, block_start_line := idx + 1, block_lines := [] }
  else if st.in_block && strStartsWith stripped "```" then
    { in_block := false, block_start_line := st.block_start_line, block_lines := [],
      blocks := st.blocks ++ [(st.block_start_line, joinWith "\n" st.block_lines)] }
  else if st.in_block then
    { st with block_lines := st.block_lines ++ [line] }
  else st

/-- The scanner's loop over the remaining lines, starting at line number `idx`. -/
def scan_lines (idx : Nat) (st : ScanState) : List String → ScanState
  | [] => st
  | line :: rest => scan_lines (idx + 1) (scan_step idx st line) rest

/-- The block-collection phase of `parse_markdown_json_blocks`: scan all
lines from line 1 and keep only the closed blocks (an unterminated open
block is left in the discarded buffer). -/
def extract_blocks (lines : List String) : List (Nat × String) :=
  (scan_lines 1 ⟨false, 0, [], []⟩ lines).blocks

/-- The promotion phase of `parse_markdown_json_blocks` for one block:
whitespace-only blocks are dropped (`continue`), a snippet directive goes
through `parse_snippet_block` (with the stripped text as original text),
anything else through `parse_json_block` (with the unstripped text). -/
def promote_block (fs : FS) (loads : String → Except String Json) (repo_root : String)
    (path : String) (block_index start_line : Nat) (block_text : String) :
    Option SchemaSource :=
  let stripped_block := pyStrip block_text
  if stripped_block = "" then none
  else
    match snippet_directive_match stripped_block with
    | some include_target =>
      some (parse_snippet_block fs loads path start_line block_index include_target
        repo_root stripped_block)
    | none => some (parse_json_block loads path start_line block_index block_text)

/-- Python `parse_markdown_json_blocks`: extract the fenced blocks of the
file, then promote each (1-based block index over ALL extracted blocks,
dropped ones included, exactly as Python's `enumerate(blocks, start=1)`). -/
def parse_markdown_json_blocks (fs : FS) (loads : String → Except String Json)
    (repo_root : String) (path : String) : List SchemaSource :=
  let lines := splitlines (fs.read_text path)
  let blocks := extract_blocks lines
  blocks.enum.filterMap (fun ib =>
    promote_block fs loads repo_root path (ib.1 + 1) ib.2.1 ib.2.2)

/-- The `.json`-file part of a directory walk: `parse_json_file` on each
child in glob order; the first parse error aborts (it is uncaught). -/
def seqParseJsonFiles (fs : FS) (loads : String → Except String Json) :
    List String → Except String (List SchemaSource)
  | [] => Except.ok []
  | p :: rest =>
    match parse_json_file fs loads p with
    | Except.error e => Except.error e
    | Except.ok srcs =>
      match seqParseJsonFiles fs loads rest with
      | Except.error e => Except.error e
      | Except.ok more => Except.ok (srcs ++ more)

/-- Python `iter_schema_sources`, consumed strictly as `main`'s `list(...)`
does: directories contribute all their `.json` files then all their `.md`
files; plain paths dispatch on the lower-cased suffix; other suffixes are
ignored.  An uncaught parse error from `parse_json_file` aborts the whole
enumeration. -/
def iter_schema_sources (fs : FS) (loads : String → Except String Json)
    (repo_root : String) : List String → Except String (List SchemaSource)
  | [] => Except.ok []
  | p :: rest =>
    let here : Except String (List SchemaSource) :=
      if fs.isDir p then
        match seqParseJsonFiles fs loads (fs.rglobJson p) with
        | Except.error e => Except.error e
        | Except.ok js =>
          Except.ok (js ++ ((fs.rglobMd p).map (parse_markdown_json_blocks fs loads repo_root)).flatten)
      else if pyLower (pathSuffix p) = ".json" then parse_json_file fs loads p
      else if pyLower (pathSuffix p) = ".md" then
        Except.ok (parse_markdown_json_blocks fs loads repo_root p)
      else Except.ok []
    match here with
    | Except.error e => Except.error e
    | Except.ok hs =>
      match iter_schema_sources fs loads repo_root rest with
      | Except.error e => Except.error e
      | Except.ok ts => Except.ok (hs ++ ts)

/-! ## Validation -/

/-- Python `schema.get("$schema")` on the parsed object: the last binding
for the key, if any (a parser keeps the last duplicate). -/
def dict_get (entries : List (String × Json)) (k : String) : Option Json :=
  (entries.reverse.find? (fun e => e.1 = k)).map Prod.snd

/-- Python `schema_uri in DRAFT07_URIS`: true exactly for a string value
that is one of the four spellings (any non-string, including an absent
field, is not a member of a set of strings). -/
def isDraft07 (v : Option Json) : Bool :=
  match v with
  | some (Json.str s) => DRAFT07_URIS.contains s
  | _ => false

/-- Python `repr` as used in `f"(got {schema_uri!r})"`: `None` for an absent
field and for JSON null, quoted text for strings, `True`/`False` for
booleans, digits for numbers.  Container reprs are abbreviated (the script
never compares them; they only appear verbatim inside one message). -/
def pyRepr : Json → String
  | Json.null => "None"
  | Json.bool true => "True"
  | Json.bool false => "False"
  | Json.num n => toString n
  | Json.str s => String.mk [squoteC] ++ s ++ String.mk [squoteC]
  | Json.arr _ => "[...]"
  | Json.obj _ => "\x7b...\x7d"

/-- `repr` of the result of `dict.get` (absent field gives Python `None`). -/
def pyReprOpt : Option Json → String
  | none => "None"
  | some j => pyRepr j

/-- Python `require_draft07`: not a dict gives the single object failure;
a dict whose `$schema` is not one of the Draft-07 spellings gives the
single dialect failure naming the offending value. -/
def require_draft07 (schema : SchemaValue) (label : String) : List String :=
  match schema with
  | SchemaValue.parsed (Json.obj entries) =>
    let schema_uri := dict_get entries "$schema"
    if isDraft07 schema_uri then []
    else [mkFailure label ("$schema must be Draft 07 (got " ++ pyReprOpt schema_uri ++ ")")]
  | _ => [mkFailure label "schema must be a JSON object"]

/-- Python `validate_schema`: a captured decode error reports itself and
stops; a non-object value reports the object failure; otherwise the
Draft-07 meta-schema check runs (`check_schema` returns the exception text,
if any — `jsonschema` is external, so it is a parameter). -/
def validate_schema (check_schema : Json → Option String) (schema : SchemaValue)
    (label : String) : List String :=
  match schema with
  | SchemaValue.decodeError m => [mkFailure label ("invalid JSON (" ++ m ++ ")")]
  | SchemaValue.parsed j =>
    match j with
    | Json.obj entries =>
      match check_schema (Json.obj entries) with
      | some exc => [mkFailure label exc]
      | none => []
    | _ => [mkFailure label "schema must be a JSON object"]

/-! ## The main driver -/

/-- The CLI arguments `main` consumes. -/
structure Args where
  paths : List String
  allow_missing_schema : Bool

/-- Python `resolve_default_paths`. -/
def resolve_default_paths (fs : FS) (repo_root : String) : List String :=
  let default_file :=
    pjoin (pjoin (pjoin (pjoin repo_root "docs") "spec-page") "specification") "schemas.md"
  if fs.pathExists default_file then [default_file] else [repo_root]

/-- Python `args.paths or resolve_default_paths()`. -/
def effective_paths (fs : FS) (repo_root : String) (args : Args) : List String :=
  if args.paths.isEmpty then resolve_default_paths fs repo_root else args.paths

/-- The failure-collection loop of `main`: for each source in order, extend
with the dialect failures (unless suppressed) and then with the structural
failures. -/
def collect_failures (check_schema : Json → Option String) (allow_missing_schema : Bool)
    (sources : List SchemaSource) : List String :=
  sources.foldl (fun failures source =>
    (if !allow_missing_schema then failures ++ require_draft07 source.schema source.label
     else failures) ++ validate_schema check_schema source.schema source.label) []

/-- Python `main`, returning the printed lines and the exit status; an
uncaught exception from source enumeration is `Except.error` (the process
then dies with a traceback instead of printing a report). -/
def run_main (fs : FS) (loads : String → Except String Json)
    (check_schema : Json → Option String) (repo_root : String) (args : Args) :
    Except String (List String × Nat) :=
  match iter_schema_sources fs loads repo_root (effective_paths fs repo_root args) with
  | Except.error e => Except.error e
  | Except.ok sources =>
    if sources.isEmpty then Except.ok (["No JSON schemas found."], 1)
    else
      let failures := collect_failures check_schema args.allow_missing_schema sources
      if failures.isEmpty then
        Except.ok (["OK: " ++ toString sources.length ++ " schema(s) verified as Draft 07"], 0)
      else
        Except.ok (["Schema verification failed:", ""] ++ failures.map (fun f => "- " ++ f), 1)

/-- The loop body of `main`'s failure collection, as folded by
`collect_failures`. -/
def collect_step (check_schema : Json → Option String) (allow_missing_schema : Bool)
    (failures : List String) (source : SchemaSource) : List String :=
  (if !allow_missing_schema then failures ++ require_draft07 source.schema source.label
   else failures) ++ validate_schema check_schema source.schema source.label

/-- What `parse_snippet_block` does once a candidate include path has been
chosen: load and parse it, capturing a parse error at the reference-site
label and recording the include path in the label on success. -/
def snippet_load (fs : FS) (loads : String → Except String Json) (path : String)
    (start_line block_index : Nat) (include_path : String) : SchemaSource :=
  match loads (fs.read_text include_path) with
  | Except.error e => ⟨path, mkLabel path start_line block_index, SchemaValue.decodeError e⟩
  | Except.ok data =>
    ⟨path, mkLabelInclude path start_line block_index include_path, SchemaValue.parsed data⟩

/-! ## Concrete fixtures, used to evaluate the theorems on closed inputs -/

/-- A two-value model of `json.loads`: the text `null` parses, everything
else fails the way CPython words it. -/
def loadsDemo : String → Except String Json := fun s =>
  if s = "null" then Except.ok Json.null else Except.error "Expecting value"

/-- A `json.loads` that accepts only the text `d7`, as a Draft-07 schema
object, and a filesystem holding that text in `ok.json`. -/
def loadsD7 : String → Except String Json := fun s =>
  if s = "d7" then
    Except.ok (Json.obj [("$schema", Json.str "http://json-schema.org/draft-07/schema#")])
  else Except.error "Expecting value"

/-- A meta-schema checker that accepts everything. -/
def csNone : Json → Option String := fun _ => none

/-- A filesystem whose only content is a malformed `bad.json` next to a
well-formed `good.json`. -/
def fsC1 : FS :=
  { pathExists := fun _ => false
    isDir := fun _ => false
    rglobJson := fun _ => []
    rglobMd := fun _ => []
    read_text := fun p => if p = "bad.json" then "oops" else "null" }

/-- A filesystem where the snippet target exists at the repo root AND under
`json-schema/`, but not next to the Markdown file. -/
def fsSnipRoot : FS :=
  { pathExists := fun p => p = "root/s.json" || p = "root/json-schema/s.json"
    isDir := fun _ => false
    rglobJson := fun _ => []
    rglobMd := fun _ => []
    read_text := fun p => if p = "root/s.json" then "null" else "" }

/-- A filesystem whose `doc.md` holds one fenced JSON block of blanks. -/
def fsBlankMd : FS :=
  { pathExists := fun _ => false
    isDir := fun _ => false
    rglobJson := fun _ => []
    rglobMd := fun _ => []
    read_text := fun p => if p = "doc.md" then "```json\n   \n```\n" else "" }

/-- A filesystem holding the single well-formed schema file `ok.json`. -/
def fsOkJson : FS :=
  { pathExists := fun _ => false
    isDir := fun _ => false
    rglobJson := fun _ => []
    rglobMd := fun _ => []
    read_text := fun p => if p = "ok.json" then "d7" else "" }

theorem collect_failures_eq_foldl (check_schema : Json → Option String) (allow : Bool)
    (sources : List SchemaSource) :
    collect_failures check_schema allow sources =
      sources.foldl (collect_step check_schema allow) [] := rfl

theorem collect_step_append (check_schema : Json → Option String) (allow : Bool)
    (acc : List String) (s : SchemaSource) :
    collect_step check_schema allow acc s = acc ++ collect_step check_schema allow [] s := by
  cases allow <;> simp [collect_step]

theorem foldl_collect_step_acc (check_schema : Json → Option String) (allow : Bool) :
    ∀ (sources : List SchemaSource) (acc : List String),
      sources.foldl (collect_step check_schema allow) acc =
        acc ++ sources.foldl (collect_step check_schema allow) [] := by
  intro sources
  induction sources with
  | nil => intro acc; simp
  | cons s rest ih =>
    intro acc
    simp only [List.foldl_cons]
    rw [ih (collect_step check_schema allow acc s),
        ih (collect_step check_schema allow [] s),
        collect_step_append check_schema allow acc s, List.append_assoc]

theorem collect_failures_cons (check_schema : Json → Option String) (allow : Bool)
    (s : SchemaSource) (rest : List SchemaSource) :
    collect_failures check_schema allow (s :: rest) =
      collect_step check_schema allow [] s ++ collect_failures check_schema allow rest := by
  rw [collect_failures_eq_foldl, List.foldl_cons, foldl_collect_step_acc,
      ← collect_failures_eq_foldl]

theorem collect_failures_eq_flatMap (check_schema : Json → Option String) (allow : Bool)
    (sources : List SchemaSource) :
    collect_failures check_schema allow sources =
      sources.flatMap (fun s =>
        (if !allow then require_draft07 s.schema s.label else []) ++
          validate_schema check_schema s.schema s.label) := by
  induction sources with
  | nil => rfl
  | cons s rest ih =>
    rw [collect_failures_cons, ih, List.flatMap_cons]
    cases allow <;> simp [collect_step]

/-- C4: with the dialect requirement enabled, both checks are attempted on
every source (the run's failure list is the concatenation, in
source-discovery order, of each source's dialect failures followed by its
structural failures — regardless of whether the dialect check failed). -/
theorem c4_both_checks_every_source_ordered :
    ∀ (check_schema : Json → Option String) (sources : List SchemaSource),
      collect_failures check_schema false sources =
        sources.flatMap (fun s =>
          require_draft07 s.schema s.label ++
            validate_schema check_schema s.schema s.label) := by
  intro check_schema sources
  rw [collect_failures_eq_flatMap]
  simp

/-- C9: with the dialect requirement suppressed, no dialect failures are
produced for any source, and the structural failures are exactly the
per-source structural failures in the same order as with the flag unset. -/
theorem c9_allow_missing_schema_skips_dialect_only :
    ∀ (check_schema : Json → Option String) (sources : List SchemaSource),
      collect_failures check_schema true sources =
        sources.flatMap (fun s => validate_schema check_schema s.schema s.label) := by
  intro check_schema sources
  rw [collect_failures_eq_flatMap]
  simp

/-- C10: a source carrying a captured parse error contributes exactly two
adjacent failures to the run with the dialect requirement enabled — the
dialect check's "schema must be a JSON object" (the error value is not a
dict) immediately followed by the structural check's "invalid JSON". -/
theorem c10_parse_error_double_reported :
    ∀ (check_schema : Json → Option String) (p label m : String)
      (rest : List SchemaSource),
      collect_failures check_schema false (⟨p, label, SchemaValue.decodeError m⟩ :: rest) =
        mkFailure label "schema must be a JSON object" ::
          mkFailure label ("invalid JSON (" ++ m ++ ")") ::
            collect_failures check_schema false rest := by
  intro check_schema p label m rest
  rw [collect_failures_cons]
  rfl

/-! ## Contracts of the two checkers -/

/-- C5: the dialect check emits exactly the single object failure (and reads
no `$schema`) on a non-dict value; on a dict it passes exactly when
`$schema` is a string equal to one of the four Draft-07 spellings, and
otherwise emits exactly one failure naming the offending value (absence
included, rendered `None`). -/
theorem c5_dialect_check_contract :
    (∀ (v : SchemaValue) (label : String), is_dict v = false →
        require_draft07 v label = [mkFailure label "schema must be a JSON object"]) ∧
    (∀ (entries : List (String × Json)) (label : String),
        (require_draft07 (SchemaValue.parsed (Json.obj entries)) label = [] ↔
          ∃ s, dict_get entries "$schema" = some (Json.str s) ∧
            (s = "http://json-schema.org/draft-07/schema#" ∨
             s = "https://json-schema.org/draft-07/schema#" ∨
             s = "http://json-schema.org/draft-07/schema" ∨
             s = "https://json-schema.org/draft-07/schema"))) ∧
    (∀ (entries : List (String × Json)) (label : String),
        require_draft07 (SchemaValue.parsed (Json.obj entries)) label = [] ∨
        require_draft07 (SchemaValue.parsed (Json.obj entries)) label =
          [mkFailure label ("$schema must be Draft 07 (got " ++
            pyReprOpt (dict_get entries "$schema") ++ ")")]) := by
  refine ⟨?_, ?_, ?_⟩
  · intro v label h
    match v, h with
    | SchemaValue.decodeError m, _ => rfl
    | SchemaValue.parsed Json.null, _ => rfl
    | SchemaValue.parsed (Json.bool b), _ => rfl
    | SchemaValue.parsed (Json.num n), _ => rfl
    | SchemaValue.parsed (Json.str s), _ => rfl
    | SchemaValue.parsed (Json.arr items), _ => rfl
    | SchemaValue.parsed (Json.obj entries), h => exact absurd h (by simp [is_dict])
  · intro entries label
    show (if isDraft07 (dict_get entries "$schema") then [] else
        [mkFailure label ("$schema must be Draft 07 (got " ++
          pyReprOpt (dict_get entries "$schema") ++ ")")]) = [] ↔ _
    rcases h : dict_get entries "$schema" with _ | j
    · simp [isDraft07]
    · cases j <;> simp [isDraft07, DRAFT07_URIS] <;> tauto
  · intro entries label
    have hif : require_draft07 (SchemaValue.parsed (Json.obj entries)) label =
        (if isDraft07 (dict_get entries "$schema") then [] else
          [mkFailure label ("$schema must be Draft 07 (got " ++
            pyReprOpt (dict_get entries "$schema") ++ ")")]) := rfl
    rw [hif]
    cases hd : isDraft07 (dict_get entries "$schema") with
    | true => left; simp
    | false => right; simp

/-- C5 witness: a captured decode error gets the single not-an-object
failure; an object declaring the hash-terminated http Draft-07 URI passes;
an object declaring Draft 06 fails with a message naming that URI. -/
theorem c5_dialect_check_contract_witness :
    require_draft07 (SchemaValue.decodeError "boom") "L" =
      [mkFailure "L" "schema must be a JSON object"] ∧
    require_draft07 (SchemaValue.parsed (Json.obj
      [("$schema", Json.str "http://json-schema.org/draft-07/schema#")])) "L" = [] ∧
    (require_draft07 (SchemaValue.parsed (Json.obj
      [("$schema", Json.str "http://json-schema.org/draft-06/schema#")])) "L" = [] ∨
     require_draft07 (SchemaValue.parsed (Json.obj
      [("$schema", Json.str "http://json-schema.org/draft-06/schema#")])) "L" =
      [mkFailure "L" ("$schema must be Draft 07 (got " ++
        pyReprOpt (dict_get [("$schema", Json.str "http://json-schema.org/draft-06/schema#")]
          "$schema") ++ ")")]) :=
  ⟨c5_dialect_check_contract.1 (SchemaValue.decodeError "boom") "L" rfl,
   (c5_dialect_check_contract.2.1 _ "L").mpr ⟨_, rfl, Or.inl rfl⟩,
   c5_dialect_check_contract.2.2 _ "L"⟩

/-- C6: the structural check on a captured parse error emits exactly the
one parse-error failure and never consults the meta-schema checker (the
result is the same for every `check_schema`); on a non-object value it
emits the object failure, and a run with the dialect requirement enabled
then reports that same message twice for the source. -/
theorem c6_structural_check_contract :
    (∀ (check_schema : Json → Option String) (label m : String),
        validate_schema check_schema (SchemaValue.decodeError m) label =
          [mkFailure label ("invalid JSON (" ++ m ++ ")")]) ∧
    (∀ (check_schema : Json → Option String) (label : String) (j : Json),
        jsonIsObj j = false →
        validate_schema check_schema (SchemaValue.parsed j) label =
          [mkFailure label "schema must be a JSON object"]) ∧
    (∀ (check_schema : Json → Option String) (p label : String) (j : Json),
        jsonIsObj j = false →
        collect_failures check_schema false [⟨p, label, SchemaValue.parsed j⟩] =
          [mkFailure label "schema must be a JSON object",
           mkFailure label "schema must be a JSON object"]) := by
  have hval : ∀ (check_schema : Json → Option String) (label : String) (j : Json),
      jsonIsObj j = false →
      validate_schema check_schema (SchemaValue.parsed j) label =
        [mkFailure label "schema must be a JSON object"] := by
    intro check_schema label j h
    match j, h with
    | Json.null, _ => rfl
    | Json.bool b, _ => rfl
    | Json.num n, _ => rfl
    | Json.str s, _ => rfl
    | Json.arr items, _ => rfl
    | Json.obj entries, h => exact absurd h (by simp [jsonIsObj])
  have hreq : ∀ (label : String) (j : Json), jsonIsObj j = false →
      require_draft07 (SchemaValue.parsed j) label =
        [mkFailure label "schema must be a JSON object"] := by
    intro label j h
    match j, h with
    | Json.null, _ => rfl
    | Json.bool b, _ => rfl
    | Json.num n, _ => rfl
    | Json.str s, _ => rfl
    | Json.arr items, _ => rfl
    | Json.obj entries, h => exact absurd h (by simp [jsonIsObj])
  refine ⟨fun _ _ _ => rfl, hval, ?_⟩
  intro check_schema p label j h
  rw [collect_failures_cons, collect_step]
  simp [hval check_schema label j h, hreq label j h, collect_failures]

/-- C6 witness: the contract evaluated on a decode error and on the
non-object value `[]` (an array), for a meta-schema checker that would
reject everything — showing it is never consulted on these inputs. -/
theorem c6_structural_check_contract_witness :
    validate_schema (fun _ => some "rejected") (SchemaValue.decodeError "Expecting value") "L" =
      [mkFailure "L" ("invalid JSON (" ++ "Expecting value" ++ ")")] ∧
    validate_schema (fun _ => some "rejected") (SchemaValue.parsed (Json.arr [])) "L" =
      [mkFailure "L" "schema must be a JSON object"] ∧
    collect_failures (fun _ => some "rejected") false
        [⟨"p", "L", SchemaValue.parsed (Json.arr [])⟩] =
      [mkFailure "L" "schema must be a JSON object",
       mkFailure "L" "schema must be a JSON object"] :=
  ⟨c6_structural_check_contract.1 (fun _ => some "rejected") "L" "Expecting value",
   c6_structural_check_contract.2.1 (fun _ => some "rejected") "L" (Json.arr []) rfl,
   c6_structural_check_contract.2.2 (fun _ => some "rejected") "p" "L" (Json.arr []) rfl⟩

/-! ## The fence scanner -/

theorem scan_lines_no_close (rest : List String) :
    ∀ (idx : Nat) (st : ScanState), st.in_block = true →
      (∀ l ∈ rest, strStartsWith (pyStrip l) "```" = false) →
      (scan_lines idx st rest).blocks = st.blocks ∧
        (scan_lines idx st rest).in_block = true := by
  induction rest with
  | nil => intro idx st h _; exact ⟨rfl, h⟩
  | cons line tail ih =>
    intro idx st h hall
    have hline : strStartsWith (pyStrip line) "```" = false := hall line (by simp)
    have hstep : scan_step idx st line = { st with block_lines := st.block_lines ++ [line] } := by
      simp [scan_step, h, hline]
    rw [scan_lines, hstep]
    exact ih (idx + 1) _ h (fun l hl => hall l (by simp [hl]))

/-- C3: the extractor is a two-state scanner — outside a block, a line whose
stripped, lower-cased text starts with the ```` ```json ```` fence opens a
block recorded as starting at the next physical line with a cleared buffer;
inside a block, a line whose stripped text starts with ```` ``` ```` closes
it, emitting the buffered lines joined by newline; a fence opened and never
closed emits nothing; and the extractor keeps exactly the closed blocks of
the scan. -/
theorem c3_markdown_two_state_scanner :
    (∀ (st : ScanState) (idx : Nat) (line : String), st.in_block = false →
        strStartsWith (pyLower (pyStrip line)) "```json" = true →
        scan_step idx st line =
          { in_block := true, block_start_line := idx + 1, block_lines := [],
            blocks := st.blocks }) ∧
    (∀ (st : ScanState) (idx : Nat) (line : String), st.in_block = true →
        strStartsWith (pyStrip line) "```" = true →
        scan_step idx st line =
          { in_block := false, block_start_line := st.block_start_line, block_lines := [],
            blocks := st.blocks ++ [(st.block_start_line, joinWith "\n" st.block_lines)] }) ∧
    (∀ (st : ScanState) (idx : Nat) (line : String) (rest : List String),
        st.in_block = false →
        strStartsWith (pyLower (pyStrip line)) "```json" = true →
        (∀ l ∈ rest, strStartsWith (pyStrip l) "```" = false) →
        (scan_lines idx st (line :: rest)).blocks = st.blocks) ∧
    (∀ lines : List String,
        extract_blocks lines = (scan_lines 1 ⟨false, 0, [], []⟩ lines).blocks) := by
  have hopen : ∀ (st : ScanState) (idx : Nat) (line : String), st.in_block = false →
      strStartsWith (pyLower (pyStrip line)) "```json" = true →
      scan_step idx st line =
        { in_block := true, block_start_line := idx + 1, block_lines := [],
          blocks := st.blocks } := by
    intro st idx line h hmark
    simp [scan_step, h, hmark]
  refine ⟨hopen, ?_, ?_, fun _ => rfl⟩
  · intro st idx line h hmark
    simp [scan_step, h, hmark]
  · intro st idx line rest h hmark hall
    rw [scan_lines, hopen st idx line h hmark]
    exact (scan_lines_no_close rest (idx + 1) _ rfl hall).1

/-- C3 witness: the scanner's transitions on concrete lines — an opening
`  ```JSON note` fence at line 4 records start line 5, a closing
`` ``` done `` fence emits the buffered block, and an unterminated fence
over a concrete tail leaves the closed blocks untouched. -/
theorem c3_markdown_two_state_scanner_witness :
    scan_step 4 ⟨false, 0, [], []⟩ "  ```JSON note" = ⟨true, 5, [], []⟩ ∧
    scan_step 9 ⟨true, 7, ["x"], []⟩ " ``` done" = ⟨false, 7, [], [(7, "x")]⟩ ∧
    (scan_lines 3 ⟨false, 0, [], [(1, "a")]⟩ ["```json", "oops", "never closed"]).blocks =
      [(1, "a")] :=
  ⟨c3_markdown_two_state_scanner.1 ⟨false, 0, [], []⟩ 4 "  ```JSON note" rfl rfl,
   c3_markdown_two_state_scanner.2.1 ⟨true, 7, ["x"], []⟩ 9 " ``` done" rfl rfl,
   c3_markdown_two_state_scanner.2.2.1 ⟨false, 0, [], [(1, "a")]⟩ 3 "```json"
     ["oops", "never closed"] rfl rfl (by decide)⟩

/-! ## Whitespace-only blocks -/

/-- C8: a block whose raw text strips to the empty string is never promoted
to a `SchemaSource` (it is silently skipped, producing no failure), and a
Markdown file all of whose extracted blocks are whitespace-only yields no
sources at all. -/
theorem c8_whitespace_blocks_dropped :
    (∀ (fs : FS) (loads : String → Except String Json) (repo_root path : String)
        (block_index start_line : Nat) (block_text : String),
        pyStrip block_text = "" →
        promote_block fs loads repo_root path block_index start_line block_text = none) ∧
    (∀ (fs : FS) (loads : String → Except String Json) (repo_root path : String),
        (∀ b ∈ extract_blocks (splitlines (fs.read_text path)), pyStrip b.2 = "") →
        parse_markdown_json_blocks fs loads repo_root path = []) := by
  have hdrop : ∀ (fs : FS) (loads : String → Except String Json) (repo_root path : String)
      (block_index start_line : Nat) (block_text : String),
      pyStrip block_text = "" →
      promote_block fs loads repo_root path block_index start_line block_text = none := by
    intro fs loads repo_root path block_index start_line block_text h
    simp [promote_block, h]
  refine ⟨hdrop, ?_⟩
  intro fs loads repo_root path hall
  rw [parse_markdown_json_blocks, List.filterMap_eq_nil_iff]
  intro ib hib
  exact hdrop fs loads repo_root path (ib.1 + 1) ib.2.1 ib.2.2
    (hall ib.2 (by
      have := List.mem_enum_iff_getElem?.mp hib
      exact List.getElem?_mem this))

/-- C8 witness: a whitespace-only block is not promoted, and a file whose
single ```` ```json ```` block holds only blanks yields no sources. -/
theorem c8_whitespace_blocks_dropped_witness :
    promote_block fsBlankMd loadsDemo "root" "doc.md" 1 2 "   \n\t" = none ∧
    parse_markdown_json_blocks fsBlankMd loadsDemo "root" "doc.md" = [] :=
  ⟨c8_whitespace_blocks_dropped.1 fsBlankMd loadsDemo "root" "doc.md" 1 2 "   \n\t" rfl,
   c8_whitespace_blocks_dropped.2 fsBlankMd loadsDemo "root" "doc.md" (by decide)⟩

/-! ## Parse errors: captured for blocks, thrown for files -/

/-- C1 counterexample: with a malformed `bad.json` first among the scanned
paths, the enumeration aborts with the raw parse error — `parse_json_file`
does not capture it in a `SchemaSource`, and no report is produced for the
well-formed `good.json` that follows. -/
theorem c1_json_file_parse_error_aborts_scan_cex :
    parse_json_file fsC1 loadsDemo "bad.json" = Except.error "Expecting value" ∧
    iter_schema_sources fsC1 loadsDemo "root" ["bad.json", "good.json"] =
      Except.error "Expecting value" :=
  ⟨rfl, rfl⟩

/-- C1 (amended): a parse error in a Markdown JSON block is captured as data
in the resulting `SchemaSource`, but a parse error in a standalone `.json`
file propagates uncaught out of `parse_json_file`, aborting the whole
enumeration, so the remaining files are not reported on. -/
theorem c1_parse_error_capture_amended :
    (∀ (loads : String → Except String Json) (path : String) (sl bi : Nat) (txt e : String),
        loads txt = Except.error e →
        parse_json_block loads path sl bi txt =
          ⟨path, mkLabel path sl bi, SchemaValue.decodeError e⟩) ∧
    (∀ (fs : FS) (loads : String → Except String Json) (root path : String)
        (rest : List String) (e : String),
        fs.isDir path = false →
        pyLower (pathSuffix path) = ".json" →
        loads (fs.read_text path) = Except.error e →
        iter_schema_sources fs loads root (path :: rest) = Except.error e) := by
  constructor
  · intro loads path sl bi txt e h
    simp [parse_json_block, h]
  · intro fs loads root path rest e hdir hsuf hload
    rw [iter_schema_sources]
    simp [hdir, hsuf, parse_json_file, hload]

/-- C1 witness: the amended statement evaluated on concrete inputs — a bad
inline block at `m.md` line 2 is captured, and a bad `bad.json` kills the
enumeration. -/
theorem c1_parse_error_capture_amended_witness :
    parse_json_block loadsDemo "m.md" 2 1 "oops" =
      ⟨"m.md", mkLabel "m.md" 2 1, SchemaValue.decodeError "Expecting value"⟩ ∧
    iter_schema_sources fsC1 loadsDemo "root" ["bad.json"] =
      Except.error "Expecting value" :=
  ⟨c1_parse_error_capture_amended.1 loadsDemo "m.md" 2 1 "oops" "Expecting value" rfl,
   c1_parse_error_capture_amended.2 fsC1 loadsDemo "root" "bad.json" [] "Expecting value"
     rfl rfl rfl⟩

/-! ## Snippet include resolution -/

/-- C2: snippet resolution tries, in order, the target relative to the
Markdown file's directory, to the repo root, and to the root's
`json-schema` subdirectory; the first existing candidate is loaded
(regardless of the later candidates); none existing yields a `SchemaSource`
carrying a captured parse error whose message names the missing target. -/
theorem c2_snippet_resolution_order :
    ∀ (fs : FS) (loads : String → Except String Json) (path : String) (sl bi : Nat)
      (t root obt : String),
      (fs.pathExists (pjoin (dirname path) t) = true →
        parse_snippet_block fs loads path sl bi t root obt =
          snippet_load fs loads path sl bi (pjoin (dirname path) t)) ∧
      (fs.pathExists (pjoin (dirname path) t) = false →
        fs.pathExists (pjoin root t) = true →
        parse_snippet_block fs loads path sl bi t root obt =
          snippet_load fs loads path sl bi (pjoin root t)) ∧
      (fs.pathExists (pjoin (dirname path) t) = false →
        fs.pathExists (pjoin root t) = false →
        fs.pathExists (pjoin (pjoin root "json-schema") t) = true →
        parse_snippet_block fs loads path sl bi t root obt =
          snippet_load fs loads path sl bi (pjoin (pjoin root "json-schema") t)) ∧
      (fs.pathExists (pjoin (dirname path) t) = false →
        fs.pathExists (pjoin root t) = false →
        fs.pathExists (pjoin (pjoin root "json-schema") t) = false →
        parse_snippet_block fs loads path sl bi t root obt =
          ⟨path, mkLabel path sl bi,
           SchemaValue.decodeError ("snippet include not found: " ++ t)⟩) := by
  intro fs loads path sl bi t root obt
  refine ⟨?_, ?_, ?_, ?_⟩
  · intro h1
    simp only [parse_snippet_block, snippet_load, List.find?]
    rw [h1]
  · intro h1 h2
    simp only [parse_snippet_block, snippet_load, List.find?]
    rw [h1, h2]
  · intro h1 h2 h3
    simp only [parse_snippet_block, snippet_load, List.find?]
    rw [h1, h2, h3]
  · intro h1 h2 h3
    simp only [parse_snippet_block, List.find?]
    rw [h1, h2, h3]

/-- C2 witness: with the target absent next to the Markdown file but
present both at the root and under `json-schema/`, the root copy is the one
loaded (later candidates notwithstanding), and its path lands in the label;
with no candidate existing, the captured message names the target. -/
theorem c2_snippet_resolution_order_witness :
    parse_snippet_block fsSnipRoot loadsDemo "docs/page.md" 3 1 "s.json" "root" "irrelevant" =
      ⟨"docs/page.md", mkLabelInclude "docs/page.md" 3 1 "root/s.json",
       SchemaValue.parsed Json.null⟩ ∧
    parse_snippet_block fsBlankMd loadsDemo "docs/page.md" 3 1 "s.json" "root" "irrelevant" =
      ⟨"docs/page.md", mkLabel "docs/page.md" 3 1,
       SchemaValue.decodeError ("snippet include not found: " ++ "s.json")⟩ := by
  constructor
  · have h := ((c2_snippet_resolution_order fsSnipRoot loadsDemo "docs/page.md" 3 1
      "s.json" "root" "irrelevant").2.1) rfl rfl
    rw [h]
    rfl
  · exact ((c2_snippet_resolution_order fsBlankMd loadsDemo "docs/page.md" 3 1
      "s.json" "root" "irrelevant").2.2.2) rfl rfl rfl

/-! ## Exit status and report format -/

theorem require_draft07_shape (v : SchemaValue) (label x : String)
    (h : x ∈ require_draft07 v label) : ∃ m, x = mkFailure label m := by
  match v with
  | SchemaValue.decodeError m => exact ⟨_, (List.mem_singleton.mp h)⟩
  | SchemaValue.parsed Json.null => exact ⟨_, (List.mem_singleton.mp h)⟩
  | SchemaValue.parsed (Json.bool b) => exact ⟨_, (List.mem_singleton.mp h)⟩
  | SchemaValue.parsed (Json.num n) => exact ⟨_, (List.mem_singleton.mp h)⟩
  | SchemaValue.parsed (Json.str s) => exact ⟨_, (List.mem_singleton.mp h)⟩
  | SchemaValue.parsed (Json.arr items) => exact ⟨_, (List.mem_singleton.mp h)⟩
  | SchemaValue.parsed (Json.obj entries) =>
    revert h
    have hif : require_draft07 (SchemaValue.parsed (Json.obj entries)) label =
        (if isDraft07 (dict_get entries "$schema") then [] else
          [mkFailure label ("$schema must be Draft 07 (got " ++
            pyReprOpt (dict_get entries "$schema") ++ ")")]) := rfl
    rw [hif]
    cases isDraft07 (dict_get entries "$schema")
    · intro h; exact ⟨_, List.mem_singleton.mp h⟩
    · intro h; exact absurd h (List.not_mem_nil x)

theorem validate_schema_shape (check_schema : Json → Option String) (v : SchemaValue)
    (label x : String) (h : x ∈ validate_schema check_schema v label) :
    ∃ m, x = mkFailure label m := by
  match v with
  | SchemaValue.decodeError m => exact ⟨_, (List.mem_singleton.mp h)⟩
  | SchemaValue.parsed Json.null => exact ⟨_, (List.mem_singleton.mp h)⟩
  | SchemaValue.parsed (Json.bool b) => exact ⟨_, (List.mem_singleton.mp h)⟩
  | SchemaValue.parsed (Json.num n) => exact ⟨_, (List.mem_singleton.mp h)⟩
  | SchemaValue.parsed (Json.str s) => exact ⟨_, (List.mem_singleton.mp h)⟩
  | SchemaValue.parsed (Json.arr items) => exact ⟨_, (List.mem_singleton.mp h)⟩
  | SchemaValue.parsed (Json.obj entries) =>
    revert h
    have hif : validate_schema check_schema (SchemaValue.parsed (Json.obj entries)) label =
        (match check_schema (Json.obj entries) with
         | some exc => [mkFailure label exc]
         | none => []) := rfl
    rw [hif]
    cases check_schema (Json.obj entries)
    · intro h; exact absurd h (List.not_mem_nil x)
    · intro h; exact ⟨_, List.mem_singleton.mp h⟩

theorem collect_failures_shape (check_schema : Json → Option String) (allow : Bool)
    (sources : List SchemaSource) (x : String)
    (h : x ∈ collect_failures check_schema allow sources) :
    ∃ src m, src ∈ sources ∧ x = mkFailure src.label m := by
  rw [collect_failures_eq_flatMap, List.mem_flatMap] at h
  obtain ⟨src, hsrc, hx⟩ := h
  rw [List.mem_append] at hx
  rcases hx with hx | hx
  · cases allow with
    | false =>
      obtain ⟨m, hm⟩ := require_draft07_shape src.schema src.label x (by simpa using hx)
      exact ⟨src, m, hsrc, hm⟩
    | true => simp at hx
  · obtain ⟨m, hm⟩ := validate_schema_shape check_schema src.schema src.label x hx
    exact ⟨src, m, hsrc, hm⟩

/-- C7: when enumeration completes, the run exits 0 exactly when the source
set is non-empty and no failures were produced, and 1 otherwise (no sources,
or at least one failure); the success output is the single count line, the
failure output prints each failure on its own `- <label>: <message>` line
(every collected failure is a source's label joined to a message), and the
empty source set prints the discovery-failure line. -/
theorem c7_exit_status_and_output :
    ∀ (fs : FS) (loads : String → Except String Json) (check_schema : Json → Option String)
      (root : String) (args : Args) (sources : List SchemaSource),
      iter_schema_sources fs loads root (effective_paths fs root args) = Except.ok sources →
      ((sources = [] → run_main fs loads check_schema root args =
          Except.ok (["No JSON schemas found."], 1)) ∧
       (sources ≠ [] →
        collect_failures check_schema args.allow_missing_schema sources = [] →
        run_main fs loads check_schema root args =
          Except.ok (["OK: " ++ toString sources.length ++ " schema(s) verified as Draft 07"],
            0)) ∧
       (collect_failures check_schema args.allow_missing_schema sources ≠ [] →
        run_main fs loads check_schema root args =
          Except.ok (["Schema verification failed:", ""] ++
            (collect_failures check_schema args.allow_missing_schema sources).map
              (fun f => "- " ++ f), 1)) ∧
       (∀ (out : List String) (code : Nat),
          run_main fs loads check_schema root args = Except.ok (out, code) →
          (code = 0 ∨ code = 1) ∧
          (code = 0 ↔ sources ≠ [] ∧
            collect_failures check_schema args.allow_missing_schema sources = [])) ∧
       (∀ x ∈ collect_failures check_schema args.allow_missing_schema sources,
          ∃ src m, src ∈ sources ∧ x = mkFailure src.label m)) := by
  intro fs loads check_schema root args sources hiter
  have hrun : run_main fs loads check_schema root args =
      (if sources.isEmpty then Except.ok (["No JSON schemas found."], 1)
       else
        if (collect_failures check_schema args.allow_missing_schema sources).isEmpty then
          Except.ok
            (["OK: " ++ toString sources.length ++ " schema(s) verified as Draft 07"], 0)
        else
          Except.ok (["Schema verification failed:", ""] ++
            (collect_failures check_schema args.allow_missing_schema sources).map
              (fun f => "- " ++ f), 1)) := by
    rw [run_main, hiter]
  refine ⟨?_, ?_, ?_, ?_, ?_⟩
  · intro hnil
    rw [hrun, hnil]
    rfl
  · intro hne hnofail
    rw [hrun, if_neg (by simp [List.isEmpty_iff, hne]), if_pos (by simp [hnofail])]
  · intro hfail
    have hne : sources ≠ [] := by
      intro hnil
      exact hfail (by rw [hnil]; rfl)
    rw [hrun, if_neg (by simp [List.isEmpty_iff, hne]),
        if_neg (by simp [List.isEmpty_iff, hfail])]
  · intro out code hout
    rw [hrun] at hout
    by_cases hs : sources.isEmpty
    · rw [if_pos hs] at hout
      have hcode : code = 1 := congrArg Prod.snd (Except.ok.inj hout) |>.symm
      refine ⟨Or.inr hcode, ?_⟩
      rw [hcode]
      simp only [List.isEmpty_iff] at hs
      simp [hs]
    · rw [if_neg hs] at hout
      by_cases hf : (collect_failures check_schema args.allow_missing_schema sources).isEmpty
      · rw [if_pos hf] at hout
        have hcode : code = 0 := congrArg Prod.snd (Except.ok.inj hout) |>.symm
        simp only [List.isEmpty_iff] at hs hf
        refine ⟨Or.inl hcode, ?_⟩
        rw [hcode]
        simp [hs, hf]
      · rw [if_neg hf] at hout
        have hcode : code = 1 := congrArg Prod.snd (Except.ok.inj hout) |>.symm
        simp only [List.isEmpty_iff] at hs hf
        refine ⟨Or.inr hcode, ?_⟩
        rw [hcode]
        simp [hs, hf]
  · intro x hx
    exact collect_failures_shape check_schema args.allow_missing_schema sources x hx

/-- C7 witness: a run over the single well-formed `ok.json` prints the
count line and exits 0; a run over an ignored-extension path finds no
sources, prints the discovery-failure line and exits 1. -/
theorem c7_exit_status_and_output_witness :
    run_main fsOkJson loadsD7 csNone "root" ⟨["ok.json"], false⟩ =
      Except.ok (["OK: " ++ toString 1 ++ " schema(s) verified as Draft 07"], 0) ∧
    run_main fsOkJson loadsD7 csNone "root" ⟨["notes.txt"], false⟩ =
      Except.ok (["No JSON schemas found."], 1) := by
  constructor
  · exact (c7_exit_status_and_output fsOkJson loadsD7 csNone "root" ⟨["ok.json"], false⟩
      [⟨"ok.json", "ok.json", SchemaValue.parsed
        (Json.obj [("$schema", Json.str "http://json-schema.org/draft-07/schema#")])⟩]
      rfl).2.1 (by simp) rfl
  · exact (c7_exit_status_and_output fsOkJson loadsD7 csNone "root" ⟨["notes.txt"], false⟩
      [] rfl).1 rfl

end VerifyJsonSchema
